import Mathlib

/-!
Verification of the date/time builtins in `mathics/builtin/datentime.py`.

The development shallowly embeds the `_Date` wrapper around Python
`datetime`, the `_DateFormat.to_datelist` normalization, and the
`DateString`, `AbsoluteTime`, `DatePlus` and `DateDifference` operations.
Python `datetime`/`timedelta` arithmetic (an external collaborator of the
module) is modelled on the proleptic Gregorian calendar with exact integer
microsecond counts; Python floats are modelled as exact rationals, and the
int/float type distinction that the Python code inspects with `isinstance`
is kept as an explicit tag.
-/

namespace Datentime

/-- Gregorian leap-year predicate, as used by Python `datetime`. -/
def isLeap (y : ℤ) : Prop := (y % 4 = 0 ∧ y % 100 ≠ 0) ∨ y % 400 = 0

instance (y : ℤ) : Decidable (isLeap y) := by unfold isLeap; infer_instance

/-- Length of a month in the proleptic Gregorian calendar (Python
`calendar`/`datetime` semantics); only meaningful for `m` in `[1,12]`. -/
def daysInMonth (y m : ℤ) : ℤ :=
  if m = 2 then (if isLeap y then 29 else 28)
  else if m = 4 ∨ m = 6 ∨ m = 9 ∨ m = 11 then 30
  else 31

/-- The stored fields of a Python `datetime` value. -/
structure DateTime where
  year : ℤ
  month : ℤ
  day : ℤ
  hour : ℤ
  minute : ℤ
  second : ℤ
  microsecond : ℤ
deriving DecidableEq, Repr

/-- Field ranges enforced by the Python `datetime` constructor
(`MINYEAR = 1`, `MAXYEAR = 9999`). -/
def DateTime.valid (dt : DateTime) : Prop :=
  1 ≤ dt.year ∧ dt.year ≤ 9999 ∧ 1 ≤ dt.month ∧ dt.month ≤ 12 ∧
  1 ≤ dt.day ∧ dt.day ≤ daysInMonth dt.year dt.month ∧
  0 ≤ dt.hour ∧ dt.hour ≤ 23 ∧ 0 ≤ dt.minute ∧ dt.minute ≤ 59 ∧
  0 ≤ dt.second ∧ dt.second ≤ 59 ∧
  0 ≤ dt.microsecond ∧ dt.microsecond ≤ 999999

instance (dt : DateTime) : Decidable dt.valid := by
  unfold DateTime.valid; infer_instance

/-- The validating Python `datetime(y, mo, d, h, mi, s, us)` constructor:
`none` models the `ValueError` it raises on an out-of-range field. -/
def mkDatetime (y mo d h mi s us : ℤ) : Option DateTime :=
  if (DateTime.mk y mo d h mi s us).valid then some ⟨y, mo, d, h, mi, s, us⟩
  else none

/-- Cumulative day count before month `m` in a non-leap year
(CPython `_DAYS_BEFORE_MONTH`). -/
def daysBeforeMonthTab (m : ℤ) : ℤ :=
  if m ≤ 1 then 0 else if m = 2 then 31 else if m = 3 then 59
  else if m = 4 then 90 else if m = 5 then 120 else if m = 6 then 151
  else if m = 7 then 181 else if m = 8 then 212 else if m = 9 then 243
  else if m = 10 then 273 else if m = 11 then 304 else 334

/-- Month length in a non-leap year (CPython `_DAYS_IN_MONTH`). -/
def daysInMonthTab (m : ℤ) : ℤ :=
  if m = 2 then 28
  else if m = 4 ∨ m = 6 ∨ m = 9 ∨ m = 11 then 30 else 31

/-- Days in all years strictly before year `y`
(CPython `_days_before_year`). -/
def daysBeforeYear (y : ℤ) : ℤ :=
  (y - 1) * 365 + (y - 1) / 4 - (y - 1) / 100 + (y - 1) / 400

/-- Day count of a Gregorian date relative to 1970-01-01 (day 0): the
linearization `datetime.toordinal` performs (CPython `_ymd2ord`, which has
ordinal 719163 for 1970-01-01), shifted to the 1970 origin. -/
def daysFromCivil (y m d : ℤ) : ℤ :=
  daysBeforeYear y + daysBeforeMonthTab m +
    (if 2 < m ∧ isLeap y then 1 else 0) + d - 719163

/-- Month estimate `(n + 50) >> 5` of CPython `_ord2ymd`, from the 0-based
day-of-year `n`. -/
def ord2ymdEst (n : ℤ) : ℤ := (n + 50) / 32

/-- Days preceding the estimated month (leap-adjusted), CPython `_ord2ymd`. -/
def ord2ymdPrecEst (lp : Prop) [Decidable lp] (n : ℤ) : ℤ :=
  daysBeforeMonthTab (ord2ymdEst n) + (if 2 < ord2ymdEst n ∧ lp then 1 else 0)

/-- Month of CPython `_ord2ymd`: the estimate, corrected down by one when it
overshoots the day-of-year. -/
def ord2ymdMonth (lp : Prop) [Decidable lp] (n : ℤ) : ℤ :=
  if n < ord2ymdPrecEst lp n then ord2ymdEst n - 1 else ord2ymdEst n

/-- Days preceding the corrected month (leap-adjusted), CPython `_ord2ymd`. -/
def ord2ymdPreceding (lp : Prop) [Decidable lp] (n : ℤ) : ℤ :=
  if n < ord2ymdPrecEst lp n then
    ord2ymdPrecEst lp n -
      (daysInMonthTab (ord2ymdMonth lp n) +
        (if ord2ymdMonth lp n = 2 ∧ lp then 1 else 0))
  else ord2ymdPrecEst lp n

/-- Month/day recovery step of CPython `_ord2ymd`, from the 0-based
day-of-year `n` and the leap-year flag `lp`. -/
def civilMonthDay (lp : Prop) [Decidable lp] (n : ℤ) : ℤ × ℤ :=
  (ord2ymdMonth lp n, n - ord2ymdPreceding lp n + 1)

/-- Core of CPython `_ord2ymd`: reassemble `(year, month, day)` from the
quotients and remainder of the 400/100/4/1-year divmod cascade. -/
def civilCore (n400 n100 n4 n1 n : ℤ) : ℤ × ℤ × ℤ :=
  let year := n400 * 400 + n100 * 100 + n4 * 4 + n1 + 1
  if n1 = 4 ∨ n100 = 4 then (year - 1, 12, 31)
  else
    let md := civilMonthDay (n1 = 3 ∧ (n4 ≠ 24 ∨ n100 = 3)) n
    (year, md.1, md.2)

/-- Inverse of `daysFromCivil`: the Gregorian `(year, month, day)` of a day
count relative to 1970-01-01 (CPython `_ord2ymd`, the algorithm behind
`datetime.fromordinal`). -/
def civilFromDays (z : ℤ) : ℤ × ℤ × ℤ :=
  let n0 := z + 719162
  civilCore (n0 / 146097) (n0 % 146097 / 36524) (n0 % 146097 % 36524 / 1461)
    (n0 % 146097 % 36524 % 1461 / 365) (n0 % 146097 % 36524 % 1461 % 365)

/-- Microseconds elapsed from 1970-01-01T00:00:00 to a `DateTime`. -/
def toEpochUsec (dt : DateTime) : ℤ :=
  daysFromCivil dt.year dt.month dt.day * 86400000000 +
    dt.hour * 3600000000 + dt.minute * 60000000 +
    dt.second * 1000000 + dt.microsecond

/-- The `DateTime` lying at a given microsecond count from 1970-01-01. -/
def ofEpochUsec (u : ℤ) : DateTime :=
  let days := u / 86400000000
  let rem := u % 86400000000
  let c := civilFromDays days
  { year := c.1, month := c.2.1, day := c.2.2,
    hour := rem / 3600000000,
    minute := rem / 60000000 % 60,
    second := rem / 1000000 % 60,
    microsecond := rem % 1000000 }

/-- Microsecond count of a Python `timedelta(days, hours, minutes, seconds)`
built from exact rational arguments; Python rounds the fractional part of
the accumulated total to whole microseconds. -/
def tdeltaUsec (d h mi s : ℚ) : ℤ :=
  round ((d * 86400 + h * 3600 + mi * 60 + s) * 1000000)

/-- Python `datetime + timedelta`: exact elapsed-time addition, raising
`OverflowError` (modelled as `none`) when the result leaves the supported
year range `[1, 9999]`. -/
def addTimedelta (dt : DateTime) (usec : ℤ) : Option DateTime :=
  let r := ofEpochUsec (toEpochUsec dt + usec)
  if 1 ≤ r.year ∧ r.year ≤ 9999 then some r else none

/-- The epoch `datetime(1900, 1, 1)` used by `AbsoluteTime` and by the
`_Date` default field values. -/
def epoch1900 : DateTime := ⟨1900, 1, 1, 0, 0, 0, 0⟩

/-- A Python number as this embedding sees it: the `int`/`float` type tag
is kept because the source dispatches on `isinstance`; a float's value is
modelled as an exact rational. -/
inductive PyNum where
  | int (z : ℤ)
  | real (q : ℚ)
deriving DecidableEq, Repr

/-- Numeric value of a Python number. -/
def PyNum.val : PyNum → ℚ
  | .int z => (z : ℚ)
  | .real q => q

/-- Python `isinstance(v, int)`. -/
def PyNum.isInt : PyNum → Bool
  | .int _ => true
  | .real _ => false

/-- Integer carried by a Python int; the float fallback is unreachable
where this is used behind an `isinstance` guard. -/
def pyIntOf : PyNum → ℤ
  | .int z => z
  | .real _ => 0

/-- Python value shapes that reach the date builtins after `to_python`:
a number, a (quote-stripped) string, a list of numbers, or anything else
(symbols, nested expressions, ...). -/
inductive PyVal where
  | num (n : PyNum)
  | str (s : String)
  | list (l : List PyNum)
  | other
deriving DecidableEq, Repr

/-- The canonical six-field datelist `[y, mo, d, h, mi, s]` of five Python
ints and one float second, as produced by `to_datelist` and `to_list`. -/
structure Datelist where
  y : ℤ
  mo : ℤ
  d : ℤ
  h : ℤ
  mi : ℤ
  s : ℚ
deriving DecidableEq, Repr

/-- Python `int()` truncation toward zero of a float. -/
def pyTrunc (q : ℚ) : ℤ := if q < 0 then ⌈q⌉ else ⌊q⌋

/-- Python `q % 1.0` on a float: the fractional part, always in `[0, 1)`
(the result takes the divisor's sign). -/
def pyFract (q : ℚ) : ℚ := q - ⌊q⌋

/-- The `_Date.__init__` default datelist `[1900, 1, 1, 0, 0, 0.]` used to
right-pad short date lists. -/
def defaultDatelist : List PyNum :=
  [.int 1900, .int 1, .int 1, .int 0, .int 0, .real 0]

/-- Element access on a padded Python list of numbers; the default is never
reached on the shapes the guarded code paths pass in. -/
def pyAt (l : List PyNum) (i : ℕ) : PyNum := (l[i]?).getD (.int 0)

/-- Integer shape of a list element; the guarding `isinstance` checks make
the float default unreachable where this is used. -/
def pyAtInt (l : List PyNum) (i : ℕ) : ℤ := pyIntOf (pyAt l i)

/-- The `_Date(datelist=...)` construction (lines 524-528): pad with the
defaults, pass the first five entries and the truncated second plus its
fraction scaled to microseconds to `datetime`.  A float among the first
five entries raises `TypeError`, an out-of-range field `ValueError`; both
are modelled as `none`. -/
def dateFromPyList (l : List PyNum) : Option DateTime :=
  let datelist := l ++ defaultDatelist.drop l.length
  match pyAt datelist 0, pyAt datelist 1, pyAt datelist 2,
      pyAt datelist 3, pyAt datelist 4 with
  | .int y, .int mo, .int d, .int h, .int mi =>
      mkDatetime y mo d h mi (pyTrunc (pyAt datelist 5).val)
        (pyTrunc (1000000 * pyFract (pyAt datelist 5).val))
  | _, _, _, _, _ => none

/-- The `_Date(datelist=...)` construction from an already canonical
six-field datelist (the shape `to_datelist` returns). -/
def dateFromList (l : Datelist) : Option DateTime :=
  mkDatetime l.y l.mo l.d l.h l.mi (pyTrunc l.s) (pyTrunc (1000000 * pyFract l.s))

/-- The `_Date(absolute=x)` construction: `datetime(1900, 1, 1)` plus
`timedelta(seconds=x)`. -/
def dateAbsolute (q : ℚ) : Option DateTime :=
  addTimedelta epoch1900 (round (q * 1000000))

/-- The year/month carry computation of `_Date.addself` (lines 538-542);
Python 2 `/` and `%` on ints are floor division and nonnegative remainder. -/
def addselfYM (year month dy dmo : ℤ) : ℤ × ℤ :=
  let years := year + dy + (month + dmo) / 12
  let months := (month + dmo) % 12
  if months = 0 then (years - 1, 12) else (years, months)

/-- Calendar-field phase of `_Date.addself` (line 543): rebuild the
datetime with the carried year/month, keeping day/hour/minute/second but
passing no microsecond argument (so the microsecond resets to 0).  A float
year/month increment makes `datetime` raise `TypeError`; an invalid
field combination raises `ValueError`; both are modelled as `none`. -/
def addselfCal (dt : DateTime) (tvy tvmo : PyNum) : Option DateTime :=
  match tvy, tvmo with
  | .int dy, .int dmo =>
      let ym := addselfYM dt.year dt.month dy dmo
      mkDatetime ym.1 ym.2 dt.day dt.hour dt.minute dt.second 0
  | _, _ => none

/-- Full `_Date.addself` (lines 537-545): the calendar-field phase followed
by the elapsed-time `timedelta` phase. -/
def addself (dt : DateTime) (tvy tvmo : PyNum) (tvd tvh tvmi tvs : ℚ) :
    Option DateTime :=
  (addselfCal dt tvy tvmo).bind fun d1 =>
    addTimedelta d1 (tdeltaUsec tvd tvh tvmi tvs)

/-- The `_Date.to_list` read-back (line 548), with
`second + 1e-6 * microsecond` as the float second. -/
def to_list (dt : DateTime) : Datelist :=
  ⟨dt.year, dt.month, dt.day, dt.hour, dt.minute,
    (dt.second : ℚ) + (dt.microsecond : ℚ) / 1000000⟩

/-- The `_Date.to_list` read-back as a raw Python list of five ints and a
float. -/
def to_list_py (dt : DateTime) : List PyNum :=
  [.int dt.year, .int dt.month, .int dt.day, .int dt.hour, .int dt.minute,
    .real ((dt.second : ℚ) + (dt.microsecond : ℚ) / 1000000)]

/-- Shape/type condition of the numeric-list branch of
`_DateFormat.to_datelist` (line 165): one to six entries, each a Python
int anywhere or a float at index 2 or later. -/
def numericListCond (etime : List PyNum) : Prop :=
  1 ≤ etime.length ∧ etime.length ≤ 6 ∧
    ∀ i : Fin etime.length, (etime.get i).isInt = true ∨ 1 < (i : ℕ)

instance (etime : List PyNum) : Decidable (numericListCond etime) := by
  unfold numericListCond; infer_instance

/-- Numeric-list branch of `_DateFormat.to_datelist` (lines 165-181): pad
with `[1900, 1, 1, 0, 0, 0.]`, construct the exact anchor
`datetime(year, month, 1)`, then add fields 3-6 as a
`timedelta(days = day - 1, hours, minutes, seconds)` and read the result
back.  `none` models the `arg` message for a failed shape check or anchor,
and the uncaught `OverflowError` of the addition. -/
def to_datelist_numeric (etime : List PyNum) : Option Datelist :=
  if numericListCond etime then
    let datelist := etime ++ defaultDatelist.drop etime.length
    (mkDatetime (pyAtInt datelist 0) (pyAtInt datelist 1) 1 0 0 0 0).bind
      fun anchor =>
        (addTimedelta anchor
          (tdeltaUsec ((pyAt datelist 2).val - 1) (pyAt datelist 3).val
            (pyAt datelist 4).val (pyAt datelist 5).val)).map to_list
  else none

/-- The `AbsoluteTime.apply_spec` tail (lines 442-447): subtract the
`datetime(1900, 1, 1)` epoch from the resolved date and return integer
seconds when the `timedelta` carries zero microseconds, a float second
count otherwise. -/
def absoluteTimeOfList (l : Datelist) : Option PyNum :=
  (dateFromList l).map fun dt =>
    let u := toEpochUsec dt - toEpochUsec epoch1900
    if u % 1000000 = 0 then .int (u / 1000000) else .real ((u : ℚ) / 1000000)

/-- A six-component time increment, one row of `TIME_INCREMENTS`. -/
structure TimeVec where
  y : ℤ
  mo : ℤ
  d : ℤ
  h : ℤ
  mi : ℤ
  s : ℤ
deriving DecidableEq, Repr

/-- The `TIME_INCREMENTS` unit table (lines 16-25). -/
def TIME_INCREMENTS : List (String × TimeVec) :=
  [("Year", ⟨1, 0, 0, 0, 0, 0⟩), ("Quarter", ⟨0, 3, 0, 0, 0, 0⟩),
   ("Month", ⟨0, 1, 0, 0, 0, 0⟩), ("Week", ⟨0, 0, 7, 0, 0, 0⟩),
   ("Day", ⟨0, 0, 1, 0, 0, 0⟩), ("Hour", ⟨0, 0, 0, 1, 0, 0⟩),
   ("Minute", ⟨0, 0, 0, 0, 1, 0⟩), ("Second", ⟨0, 0, 0, 0, 0, 1⟩)]

/-- Python multiplication `o[0] * TIME_INCREMENTS[o[1]][i]`: an int amount
stays an int, a float amount stays a float. -/
def pyScale (amount : PyNum) (k : ℤ) : PyNum :=
  match amount with
  | .int a => .int (a * k)
  | .real q => .real (q * k)

/-- Outcome of a builtin `apply` call: a returned value, a silent `return`
of no value, or an uncaught Python exception. -/
inductive PyExit (α : Type) where
  | val (a : α)
  | retNone
  | exn
deriving DecidableEq, Repr

/-- An `apply` outcome together with the `evaluation.message` tags issued
on the way (the source sometimes issues a message and then continues). -/
structure PyOut (α : Type) where
  msgs : List String
  exit : PyExit α
deriving DecidableEq, Repr

/-- Result value of `DateDifference.apply`: a bare number for `"Day"` or a
`[number, unitName]` pair for the other units. -/
inductive DDVal where
  | num (n : PyNum)
  | withUnit (n : PyNum) (u : String)
deriving DecidableEq, Repr

/-- The `intdiv` helper of `DateDifference.apply` (lines 703-708): exact
Python 2 integer division when an int numerator divides evenly, otherwise
float division (a float numerator always yields a float in Python 2). -/
def intdiv : PyNum → ℤ → PyNum
  | .int a, b => if a % b = 0 then .int (a / b) else .real ((a : ℚ) / (b : ℚ))
  | .real q, b => .real (q / (b : ℚ))

/-- Unit-conversion block of `DateDifference.apply` (lines 716-731).  The
`Minute` branch reads the misspelled name `secods` and the fall-through
case for an unrecognized unit leaves `result` unassigned; both raise
`NameError`, modelled as `PyExit.exn`. -/
def ddUnitBranch (seconds : PyNum) (u : String) : PyExit DDVal :=
  if u = "Year" then .val (.withUnit (intdiv seconds (365 * 24 * 60 * 60)) "Year")
  else if u = "Quarter" then .val (.withUnit (intdiv seconds (365 * 6 * 60 * 60)) "Quarter")
  else if u = "Month" then .val (.withUnit (intdiv seconds (365 * 2 * 60 * 60)) "Month")
  else if u = "Week" then .val (.withUnit (intdiv seconds (7 * 24 * 60 * 60)) "Week")
  else if u = "Day" then .val (.num (intdiv seconds (24 * 60 * 60)))
  else if u = "Hour" then .val (.withUnit (intdiv seconds (60 * 60)) "Hour")
  else if u = "Minute" then .exn
  else if u = "Second" then .val (.withUnit seconds "Second")
  else .exn

/-- Resolution of the FIRST argument of `DateDifference.apply` (lines
667-675).  Note that in the string branch the source parses
`pydate2.strip('"')`, i.e. the SECOND argument's text; when `pydate2` is
not a string this raises `AttributeError`. -/
def ddResolve1 (parse : String → Option DateTime) (date1 date2 : PyVal) :
    Except (PyOut DDVal) DateTime :=
  match date1 with
  | .list l =>
      match dateFromPyList l with
      | some dt => .ok dt
      | none => .error ⟨[], .exn⟩
  | .num n =>
      match dateAbsolute n.val with
      | some dt => .ok dt
      | none => .error ⟨[], .exn⟩
  | .str _ =>
      match date2 with
      | .str s2 =>
          match parse s2 with
          | some dt => .ok dt
          | none => .error ⟨[], .exn⟩
      | _ => .error ⟨[], .exn⟩
  | .other => .error ⟨["date"], .retNone⟩

/-- Resolution of the SECOND argument of `DateDifference.apply` (lines
677-685).  The string branch is guarded by `isinstance(pydate1,
basestring)`, i.e. it tests the FIRST argument's type. -/
def ddResolve2 (parse : String → Option DateTime) (date1 date2 : PyVal) :
    Except (PyOut DDVal) DateTime :=
  match date2 with
  | .list l =>
      match dateFromPyList l with
      | some dt => .ok dt
      | none => .error ⟨[], .exn⟩
  | .num n =>
      match dateAbsolute n.val with
      | some dt => .ok dt
      | none => .error ⟨[], .exn⟩
  | _ =>
      match date1 with
      | .str _ =>
          match date2 with
          | .str s2 =>
              match parse s2 with
              | some dt => .ok dt
              | none => .error ⟨[], .exn⟩
          | _ => .error ⟨[], .exn⟩
      | _ => .error ⟨["date"], .retNone⟩

/-- Units processing of `DateDifference.apply` (lines 694-700): a string
becomes a singleton list; a list argument evaluates
`all(isinstance(p, unicode))` over an unbound name `p` (`NameError`), and
any other shape raises `TypeError` when iterated at line 700. -/
def ddUnits : PyVal → Except (PyOut DDVal) (List String)
  | .str s => .ok [s]
  | _ => .error ⟨[], .exn⟩

/-- Model of `DateDifference.apply` (lines 661-735); `parse` stands for the
external `dateutil.parser.parse`.  After an unrecognized unit the source
issues the `inc` message WITHOUT returning, so execution falls into the
conversion block. -/
def dateDifferenceApply (parse : String → Option DateTime)
    (date1 date2 units : PyVal) : PyOut DDVal :=
  match ddResolve1 parse date1 date2 with
  | .error e => e
  | .ok idate =>
      match ddResolve2 parse date1 date2 with
      | .error e => e
      | .ok fdate =>
          let u := toEpochUsec fdate - toEpochUsec idate
          match ddUnits units with
          | .error e => e
          | .ok pyunits =>
              let msgs :=
                if pyunits.all (fun p => (TIME_INCREMENTS.lookup p).isSome)
                then [] else ["inc"]
              let seconds : PyNum :=
                if u % 1000000 = 0 then .int (u / 1000000)
                else .real ((u : ℚ) / 1000000)
              match pyunits with
              | [un] => ⟨msgs, ddUnitBranch seconds un⟩
              | _ => ⟨msgs, .retNone⟩

/-- Output-shape tag of `DatePlus.apply`, decided by the input date's kind
(lines 591-599). -/
inductive DPPrec where
  | dlist (k : ℕ)
  | absolute
  | strform
deriving DecidableEq, Repr

/-- Result of `DatePlus.apply`: a truncated date list, or the unevaluated
`AbsoluteTime[...]` / `DateString[...]` expression for the other shapes
(lines 621-627). -/
inductive DPVal where
  | dlist (l : List PyNum)
  | absoluteExpr (l : Datelist)
  | dateStringExpr (l : Datelist)
deriving DecidableEq, Repr

/-- Date processing of `DatePlus.apply` (lines 590-602); uncaught
constructor exceptions are modelled as `PyExit.exn`. -/
def dpResolve (parse : String → Option DateTime) (date : PyVal) :
    Except (PyOut DPVal) (DateTime × DPPrec) :=
  match date with
  | .list l =>
      match dateFromPyList l with
      | some dt => .ok (dt, .dlist l.length)
      | none => .error ⟨[], .exn⟩
  | .num n =>
      match dateAbsolute n.val with
      | some dt => .ok (dt, .absolute)
      | none => .error ⟨[], .exn⟩
  | .str s =>
      match parse s with
      | some dt => .ok (dt, .strform)
      | none => .error ⟨[], .exn⟩
  | .other => .error ⟨["date"], .retNone⟩

/-- Validity check of one offset pair in `DatePlus.apply` (line 614): the
unit name must be a `TIME_INCREMENTS` key and the amount a Python int or
float. -/
def offGood (o : PyVal × String) : Bool :=
  (TIME_INCREMENTS.lookup o.2).isSome &&
    (match o.1 with
     | .num _ => true
     | _ => false)

/-- One loop step of `DatePlus.apply` (line 616):
`idate.addself([o[0] * TIME_INCREMENTS[o[1]][i] for i in range(6)])`.  The
fallback is unreachable once `offGood` holds. -/
def applyIncrement (dt : DateTime) (o : PyVal × String) : Option DateTime :=
  match o.1, TIME_INCREMENTS.lookup o.2 with
  | .num a, some tv =>
      addself dt (pyScale a tv.y) (pyScale a tv.mo) ((pyScale a tv.d).val)
        ((pyScale a tv.h).val) ((pyScale a tv.mi).val) ((pyScale a tv.s).val)
  | _, _ => none

/-- Model of `DatePlus.apply` (lines 586-628) after offset normalization
(lines 605-612 turn a bare number or single pair into a list of pairs).
A bad offset list issues the `inc` message and returns no value; an
exception inside the `addself` loop is uncaught. -/
def datePlusApply (parse : String → Option DateTime) (date : PyVal)
    (off : List (PyVal × String)) : PyOut DPVal :=
  match dpResolve parse date with
  | .error e => e
  | .ok (idate, prec) =>
      if off.all offGood then
        match off.foldlM applyIncrement idate with
        | some dt =>
            match prec with
            | .dlist k => ⟨[], .val (.dlist ((to_list_py dt).take k))⟩
            | .absolute => ⟨[], .val (.absoluteExpr (to_list dt))⟩
            | .strform => ⟨[], .val (.dateStringExpr (to_list dt))⟩
        | none => ⟨[], .exn⟩
      else ⟨["inc"], .retNone⟩

/-- Python `str.lstrip('0')`: drop every leading `'0'` character. -/
def lstrip0 (s : String) : String :=
  String.mk (s.data.dropWhile (fun c => c = '0'))

/-- Helper for Python `str.split(' ')` over the character list. -/
def splitSpaceAux : List Char → List Char → List (List Char)
  | [], acc => [acc.reverse]
  | c :: rest, acc =>
      if c = ' ' then acc.reverse :: splitSpaceAux rest []
      else splitSpaceAux rest (c :: acc)

/-- Python `str.split(' ')` (keeps empty fields). -/
def pySplitSpace (s : String) : List String :=
  (splitSpaceAux s.data []).map String.mk

/-- Python `' '.join(...)`. -/
def joinSpace (l : List String) : String := String.intercalate " " l

/-- Python `str.endswith`. -/
def pyEndswith (s suf : String) : Bool := suf.data.isSuffixOf s.data

/-- Abbreviated C-locale weekday names, Monday first (Python
`date.weekday()` numbering). -/
def dayNamesShort : List String :=
  ["Mon", "Tue", "Wed", "Thu", "Fri", "Sat", "Sun"]

/-- Full C-locale weekday names, Monday first. -/
def dayNamesFull : List String :=
  ["Monday", "Tuesday", "Wednesday", "Thursday", "Friday", "Saturday",
   "Sunday"]

/-- Abbreviated C-locale month names. -/
def monthNamesShort : List String :=
  ["Jan", "Feb", "Mar", "Apr", "May", "Jun", "Jul", "Aug", "Sep", "Oct",
   "Nov", "Dec"]

/-- Full C-locale month names. -/
def monthNamesFull : List String :=
  ["January", "February", "March", "April", "May", "June", "July",
   "August", "September", "October", "November", "December"]

/-- Python `date.weekday()`: 0 for Monday through 6 for Sunday. -/
def weekdayOf (dt : DateTime) : ℤ :=
  (daysFromCivil dt.year dt.month dt.day + 3) % 7

/-- Zero-padded decimal rendering of a nonnegative integer to width `w`
(the C `strftime` numeric field style). -/
def padZero (w : ℕ) (n : ℤ) : String :=
  if 0 ≤ n then
    String.mk (List.replicate (w - (toString n.toNat).length) '0') ++
      toString n.toNat
  else toString n

/-- Space-padded two-column day-of-month (C `strftime` `%e`). -/
def padSpace2 (n : ℤ) : String :=
  if 0 ≤ n ∧ n < 10 then " " ++ toString n else toString n

/-- Rendering of one C-locale `strftime` directive: the model of the
platform `strftime` that Python `datetime.strftime` delegates to. -/
def strfDirective (dt : DateTime) (c : Char) : String :=
  if c = 'Y' then padZero 4 dt.year
  else if c = 'y' then padZero 2 (dt.year % 100)
  else if c = 'm' then padZero 2 dt.month
  else if c = 'd' then padZero 2 dt.day
  else if c = 'H' then padZero 2 dt.hour
  else if c = 'I' then padZero 2 ((dt.hour + 11) % 12 + 1)
  else if c = 'M' then padZero 2 dt.minute
  else if c = 'S' then padZero 2 dt.second
  else if c = 'f' then padZero 6 dt.microsecond
  else if c = 'p' then (if dt.hour < 12 then "AM" else "PM")
  else if c = 'a' then dayNamesShort.getD (weekdayOf dt).toNat ""
  else if c = 'A' then dayNamesFull.getD (weekdayOf dt).toNat ""
  else if c = 'b' then monthNamesShort.getD (dt.month - 1).toNat ""
  else if c = 'B' then monthNamesFull.getD (dt.month - 1).toNat ""
  else if c = 'X' then
    padZero 2 dt.hour ++ ":" ++ padZero 2 dt.minute ++ ":" ++
      padZero 2 dt.second
  else if c = 'c' then
    dayNamesShort.getD (weekdayOf dt).toNat "" ++ " " ++
      monthNamesShort.getD (dt.month - 1).toNat "" ++ " " ++
      padSpace2 dt.day ++ " " ++ padZero 2 dt.hour ++ ":" ++
      padZero 2 dt.minute ++ ":" ++ padZero 2 dt.second ++ " " ++
      padZero 4 dt.year
  else String.mk ['%', c]

/-- Expansion of the `%`-directives of a `strftime` pattern. -/
def strftimeAux (dt : DateTime) : List Char → List Char
  | [] => []
  | '%' :: c :: rest => (strfDirective dt c).data ++ strftimeAux dt rest
  | c :: rest => c :: strftimeAux dt rest

/-- C-locale `strftime` over a pattern string. -/
def strftime (dt : DateTime) (fmt : String) : String :=
  String.mk (strftimeAux dt fmt.data)

/-- The `DATE_STRING_FORMATS` token table (lines 28-64). -/
def DATE_STRING_FORMATS : List (String × String) :=
  [("Date", "%c"), ("DateShort", "%a %d %b %Y"), ("Time", "%X"),
   ("DateTime", "%c %X"), ("DateTimeShort", "%a %d %b %Y %X"),
   ("Year", "%Y"), ("YearShort", "%y"), ("MonthName", "%B"),
   ("MonthNameShort", "%b"), ("Month", "%m"), ("MonthShort", "%m"),
   ("DayName", "%A"), ("DayNameShort", "%a"), ("Day", "%d"),
   ("DayShort", "%d"), ("Hour", "%H"), ("Hour12", "%I"), ("Hour24", "%H"),
   ("HourShort", "%H"), ("Hour12Short", "%I"), ("Hour24Short", "%H"),
   ("AMPM", "%p"), ("Minute", "%M"), ("MinuteShort", "%M"),
   ("Second", "%S"), ("SecondShort", "%S"), ("SecondExact", "%S.%f")]

/-- One iteration of the `DateString.apply` rendering loop (lines 379-392):
a recognized token name renders through `strftime`; a `...Short` token
other than `YearShort` then strips leading zeros with `lstrip('0')` on
every space-separated field (`DateTimeShort`: on every field but the
last); an unrecognized name is emitted verbatim. -/
def renderForm (dt : DateTime) (p : String) : String :=
  match DATE_STRING_FORMATS.lookup p with
  | some fmt =>
      let tmp := strftime dt fmt
      if pyEndswith p "Short" ∧ p ≠ "YearShort" then
        if p = "DateTimeShort" then
          joinSpace (((pySplitSpace tmp).dropLast.map lstrip0) ++
            [(pySplitSpace tmp).getLastD ""])
        else joinSpace ((pySplitSpace tmp).map lstrip0)
      else tmp
  | none => p

/-- Python string join with the empty separator: plain concatenation of a
list of strings. -/
def strJoin : List String → String
  | [] => ""
  | s :: rest => s ++ strJoin rest

/-- The `DateString.apply` rendering tail (lines 378-394): render each
requested form in input order and concatenate with no separator. -/
def dateString (dt : DateTime) (forms : List String) : String :=
  strJoin (forms.map (renderForm dt))

/-- Modelled from the spec: strip at most ONE leading zero from a rendered
substring (the literal reading of the `stripsLeadingZero` rule in C9), for
comparison with the source's `lstrip('0')`. -/
def stripOneLeadingZeroSpec (s : String) : String :=
  match s.data with
  | '0' :: rest => String.mk rest
  | _ => s

/-- A parse function standing for `dateutil.parser.parse` where the text
path is not exercised. -/
def noParse : String → Option DateTime := fun _ => none

/-- A concrete stand-in for `dateutil.parser.parse` that resolves the text
`"A"` to 1991-06-06 and `"B"` to 1991-06-07. -/
def c6parse : String → Option DateTime := fun s =>
  if s = "A" then some ⟨1991, 6, 6, 0, 0, 0, 0⟩
  else if s = "B" then some ⟨1991, 6, 7, 0, 0, 0, 0⟩
  else none


/-- Helper extraction: a successful `mkDatetime` yields a valid value. -/
theorem mkDatetime_valid {y mo d h mi s us : ℤ} {dt : DateTime}
    (h : mkDatetime y mo d h mi s us = some dt) : dt.valid := by
  unfold mkDatetime at h
  split_ifs at h with hv
  · cases h; exact hv


theorem monthDayFlat (lp : Prop) [Decidable lp]
    (n mEst precEst m preceding d : ℤ)
    (hE : mEst = (n + 50) / 32)
    (hP : precEst = daysBeforeMonthTab mEst + (if 2 < mEst ∧ lp then 1 else 0))
    (hM : m = if n < precEst then mEst - 1 else mEst)
    (hPr : preceding =
      if n < precEst then
        precEst - (daysInMonthTab m + (if m = 2 ∧ lp then 1 else 0))
      else precEst)
    (hD : d = n - preceding + 1)
    (h7 : 0 ≤ n) (h8 : n ≤ 364) :
    1 ≤ m ∧ m ≤ 12 ∧ 1 ≤ d ∧
      d ≤ daysInMonthTab m + (if m = 2 ∧ lp then 1 else 0) := by
  have hE1 : 1 ≤ mEst := by omega
  have hE2 : mEst ≤ 12 := by omega
  by_cases hlp : lp <;>
    simp only [hlp, and_true, and_false, if_true, if_false] at hP hPr ⊢ <;>
    interval_cases mEst <;>
    norm_num [daysBeforeMonthTab] at hP <;>
    split_ifs at hM hPr <;>
    subst hM <;>
    norm_num [daysInMonthTab] at hPr ⊢ <;>
    omega

theorem civilMonthDay_valid (lp : Prop) [Decidable lp] (n m d : ℤ)
    (h7 : 0 ≤ n) (h8 : n ≤ 364) (h : civilMonthDay lp n = (m, d)) :
    1 ≤ m ∧ m ≤ 12 ∧ 1 ≤ d ∧
      d ≤ daysInMonthTab m + (if m = 2 ∧ lp then 1 else 0) := by
  have h1 : ord2ymdMonth lp n = m := congrArg Prod.fst h
  have h2 : n - ord2ymdPreceding lp n + 1 = d := congrArg Prod.snd h
  subst h1; subst h2
  exact monthDayFlat lp n (ord2ymdEst n) (ord2ymdPrecEst lp n)
    (ord2ymdMonth lp n) (ord2ymdPreceding lp n) _
    rfl rfl rfl rfl rfl h7 h8

theorem isLeap_cascade (n400 n100 n4 n1 : ℤ)
    (b1 : 0 ≤ n100) (b2 : n100 ≤ 3) (b3 : 0 ≤ n4) (b4 : n4 ≤ 24)
    (b5 : 0 ≤ n1) (b6 : n1 ≤ 3) :
    isLeap (n400 * 400 + n100 * 100 + n4 * 4 + n1 + 1) ↔
      (n1 = 3 ∧ (n4 ≠ 24 ∨ n100 = 3)) := by
  unfold isLeap; omega

theorem civilCore_valid (n400 n100 n4 n1 n y m d : ℤ)
    (b1 : 0 ≤ n100) (b2 : n100 ≤ 4) (b3 : 0 ≤ n4) (b4 : n4 ≤ 24)
    (b5 : 0 ≤ n1) (b6 : n1 ≤ 4) (b7 : 0 ≤ n) (b8 : n ≤ 364)
    (h : civilCore n400 n100 n4 n1 n = (y, m, d)) :
    1 ≤ m ∧ m ≤ 12 ∧ 1 ≤ d ∧ d ≤ daysInMonth y m := by
  simp only [civilCore] at h
  split_ifs at h with hsp
  · have hm : (12 : ℤ) = m := congrArg (fun p => p.2.1) h
    have hd : (31 : ℤ) = d := congrArg (fun p => p.2.2) h
    subst hm; subst hd
    norm_num [daysInMonth]
  · have hy : n400 * 400 + n100 * 100 + n4 * 4 + n1 + 1 = y :=
      congrArg Prod.fst h
    have hmd : civilMonthDay (n1 = 3 ∧ (n4 ≠ 24 ∨ n100 = 3)) n = (m, d) := by
      have hm1 : (civilMonthDay (n1 = 3 ∧ (n4 ≠ 24 ∨ n100 = 3)) n).1 = m :=
        congrArg (fun p => p.2.1) h
      have hd1 : (civilMonthDay (n1 = 3 ∧ (n4 ≠ 24 ∨ n100 = 3)) n).2 = d :=
        congrArg (fun p => p.2.2) h
      exact Prod.ext hm1 hd1
    obtain ⟨c1, c2, c3, c4⟩ :=
      civilMonthDay_valid (n1 = 3 ∧ (n4 ≠ 24 ∨ n100 = 3)) n m d b7 b8 hmd
    refine ⟨c1, c2, c3, ?_⟩
    have hleap : isLeap y ↔ (n1 = 3 ∧ (n4 ≠ 24 ∨ n100 = 3)) := by
      rw [← hy]
      exact isLeap_cascade n400 n100 n4 n1 b1 (by omega) b3 b4 b5 (by omega)
    by_cases hm2 : m = 2
    · subst hm2
      simp only [eq_self_iff_true, true_and] at c4
      simp only [daysInMonth, if_pos rfl]
      by_cases hl : isLeap y
      · rw [if_pos hl]
        rw [if_pos (hleap.mp hl)] at c4
        norm_num [daysInMonthTab] at c4
        omega
      · rw [if_neg hl]
        rw [if_neg (fun hh => hl (hleap.mpr hh))] at c4
        norm_num [daysInMonthTab] at c4
        omega
    · have he : daysInMonth y m = daysInMonthTab m := by
        simp only [daysInMonth, daysInMonthTab, if_neg hm2]
      rw [he]
      have : ¬(m = 2 ∧ (n1 = 3 ∧ (n4 ≠ 24 ∨ n100 = 3))) := fun hh => hm2 hh.1
      rw [if_neg this] at c4
      omega

theorem civilFromDays_valid (z y m d : ℤ) (h : civilFromDays z = (y, m, d)) :
    1 ≤ m ∧ m ≤ 12 ∧ 1 ≤ d ∧ d ≤ daysInMonth y m := by
  have h' : civilCore ((z + 719162) / 146097) ((z + 719162) % 146097 / 36524)
      ((z + 719162) % 146097 % 36524 / 1461)
      ((z + 719162) % 146097 % 36524 % 1461 / 365)
      ((z + 719162) % 146097 % 36524 % 1461 % 365) = (y, m, d) := h
  exact civilCore_valid _ _ _ _ _ y m d (by omega) (by omega) (by omega)
    (by omega) (by omega) (by omega) (by omega) (by omega) h'

theorem ofEpochUsec_valid (u : ℤ) (hy : 1 ≤ (ofEpochUsec u).year)
    (hy' : (ofEpochUsec u).year ≤ 9999) : (ofEpochUsec u).valid := by
  have hc : civilFromDays (u / 86400000000) =
      ((civilFromDays (u / 86400000000)).1,
       (civilFromDays (u / 86400000000)).2.1,
       (civilFromDays (u / 86400000000)).2.2) := rfl
  have hv := civilFromDays_valid _ _ _ _ hc
  simp only [ofEpochUsec] at hy hy' ⊢
  unfold DateTime.valid
  refine ⟨hy, hy', hv.1, hv.2.1, hv.2.2.1, hv.2.2.2, ?_, ?_, ?_, ?_, ?_, ?_, ?_, ?_⟩ <;>
    (dsimp only; omega)

/-- C4: for any date with month in `[1,12]` and integer year/month deltas,
the calendar-field phase of `addself` produces
`newYear = year + dy + floor(((month - 1) + dmo) / 12)` and
`newMonth = (((month - 1) + dmo) mod 12) + 1`, with the new month always in
`[1,12]` and negative remainders borrowing from the year. -/
theorem c4_yearMonthCarry (year month dy dmo : ℤ)
    (h1 : 1 ≤ month) (h2 : month ≤ 12) :
    addselfYM year month dy dmo =
      (year + dy + (month - 1 + dmo) / 12, (month - 1 + dmo) % 12 + 1) ∧
    1 ≤ (addselfYM year month dy dmo).2 ∧ (addselfYM year month dy dmo).2 ≤ 12 := by
  unfold addselfYM
  dsimp only
  split_ifs with h <;>
    refine ⟨by simp only [Prod.mk.injEq]; constructor <;> omega,
      by dsimp only; omega, by dsimp only; omega⟩

/-- Witness for C4 at year 2020, month 11, delta (0, 3). -/
theorem c4_witness :
    (1 : ℤ) ≤ 11 ∧ (11 : ℤ) ≤ 12 ∧
      addselfYM 2020 11 0 3 = (2021, 2) ∧
      1 ≤ (addselfYM 2020 11 0 3).2 ∧ (addselfYM 2020 11 0 3).2 ≤ 12 := by
  have h := c4_yearMonthCarry 2020 11 0 3 (by decide) (by decide)
  exact ⟨by decide, by decide, h.1.trans (by decide), h.2.1, h.2.2⟩

/-- C5 amended: during the calendar-field phase of `addself` the day, hour,
minute and integer second keep their current values, but the microsecond
(the sub-second fraction) is reset to zero, because the `datetime` call at
line 543 passes no microsecond argument. -/
theorem c5_calendarPhase_frame (dt : DateTime) (tvy tvmo : PyNum) (d1 : DateTime)
    (h : addselfCal dt tvy tvmo = some d1) :
    d1.day = dt.day ∧ d1.hour = dt.hour ∧ d1.minute = dt.minute ∧
      d1.second = dt.second ∧ d1.microsecond = 0 := by
  cases tvy with
  | real q => simp [addselfCal] at h
  | int dy =>
    cases tvmo with
    | real q => simp [addselfCal] at h
    | int dmo =>
      unfold addselfCal at h
      dsimp only at h
      unfold mkDatetime at h
      split_ifs at h with hval
      injection h with h'
      subst h'
      exact ⟨rfl, rfl, rfl, rfl, rfl⟩

/-- Witness for C5 at 2000-01-15 03:04:05 plus one month. -/
theorem c5_witness :
    addselfCal ⟨2000, 1, 15, 3, 4, 5, 0⟩ (.int 0) (.int 1) =
        some ⟨2000, 2, 15, 3, 4, 5, 0⟩ ∧
      (⟨2000, 2, 15, 3, 4, 5, 0⟩ : DateTime).day = (15 : ℤ) ∧
      (⟨2000, 2, 15, 3, 4, 5, 0⟩ : DateTime).microsecond = 0 := by
  have h := c5_calendarPhase_frame ⟨2000, 1, 15, 3, 4, 5, 0⟩ (.int 0) (.int 1)
    ⟨2000, 2, 15, 3, 4, 5, 0⟩ (by decide)
  exact ⟨by decide, h.1, h.2.2.2.2⟩

/-- C3 amended: `addself` itself can fail validation (see the
counterexample); whenever the calendar-field phase builds a valid date and
the elapsed-time phase lands inside the supported year range, `addself`
succeeds and its result is calendar-valid. -/
theorem c3_addself_safe (dt d1 : DateTime) (dy dmo : ℤ) (tvd tvh tvmi tvs : ℚ)
    (hdt : dt.valid)
    (hcal : addselfCal dt (.int dy) (.int dmo) = some d1)
    (hyr : 1 ≤ (ofEpochUsec (toEpochUsec d1 + tdeltaUsec tvd tvh tvmi tvs)).year)
    (hyr' : (ofEpochUsec (toEpochUsec d1 + tdeltaUsec tvd tvh tvmi tvs)).year ≤ 9999) :
    addself dt (.int dy) (.int dmo) tvd tvh tvmi tvs =
      some (ofEpochUsec (toEpochUsec d1 + tdeltaUsec tvd tvh tvmi tvs)) ∧
    (ofEpochUsec (toEpochUsec d1 + tdeltaUsec tvd tvh tvmi tvs)).valid := by
  unfold addself
  rw [hcal]
  unfold addTimedelta
  simp only [Option.some_bind]
  rw [if_pos ⟨hyr, hyr'⟩]
  exact ⟨rfl, ofEpochUsec_valid _ hyr hyr'⟩

/-- Witness for C3 at 2000-01-15 plus one month. -/
theorem c3_witness :
    addself ⟨2000, 1, 15, 0, 0, 0, 0⟩ (.int 0) (.int 1) 0 0 0 0 =
      some (ofEpochUsec (toEpochUsec ⟨2000, 2, 15, 0, 0, 0, 0⟩ + tdeltaUsec 0 0 0 0)) ∧
    (ofEpochUsec (toEpochUsec ⟨2000, 2, 15, 0, 0, 0, 0⟩ + tdeltaUsec 0 0 0 0)).valid :=
  c3_addself_safe ⟨2000, 1, 15, 0, 0, 0, 0⟩ ⟨2000, 2, 15, 0, 0, 0, 0⟩ 0 1 0 0 0 0
    (by decide) (by decide) (by decide!) (by decide!)

/-- Counterexample to C3 as stated: adding one month to the calendar-valid
date 2000-01-31 raises `ValueError` inside `addself` (the held day 31 does
not exist in February), so validation failures DO occur inside
`addIncrement`. -/
theorem c3_counterexample :
    (⟨2000, 1, 31, 0, 0, 0, 0⟩ : DateTime).valid ∧
      addself ⟨2000, 1, 31, 0, 0, 0, 0⟩ (.int 0) (.int 1) 0 0 0 0 = none := by
  decide!

/-- Counterexample to C5 as stated: applying the zero increment to
2003-05-01 00:00:00.020000 returns a date with microsecond 0, so the
sub-second fraction does not keep its value through the calendar-field
phase. -/
theorem c5_counterexample :
    (⟨2003, 5, 1, 0, 0, 0, 20000⟩ : DateTime).valid ∧
      (addself ⟨2003, 5, 1, 0, 0, 0, 20000⟩ (.int 0) (.int 0) 0 0 0 0).map
          DateTime.microsecond = some 0 ∧
      (⟨2003, 5, 1, 0, 0, 0, 20000⟩ : DateTime).microsecond = 20000 := by
  decide!

/-- C10: for every datelist that `_Date` accepts, the absolute-time
conversion returns the elapsed seconds since 1900-01-01T00:00:00, as the
exact integer quotient when the resolved instant has a zero microsecond
part and as a rational (Python float) otherwise. -/
theorem c10_absoluteTime (l : Datelist) (dt : DateTime)
    (h : dateFromList l = some dt) :
    (dt.microsecond = 0 → (1000000 : ℤ) ∣ (toEpochUsec dt - toEpochUsec epoch1900)) ∧
    absoluteTimeOfList l =
      some (if dt.microsecond = 0
        then PyNum.int ((toEpochUsec dt - toEpochUsec epoch1900) / 1000000)
        else PyNum.real (((toEpochUsec dt - toEpochUsec epoch1900 : ℤ) : ℚ) / 1000000)) := by
  have hv : dt.valid := mkDatetime_valid h
  have hus1 : 0 ≤ dt.microsecond := hv.2.2.2.2.2.2.2.2.2.2.2.2.1
  have hus2 : dt.microsecond ≤ 999999 := hv.2.2.2.2.2.2.2.2.2.2.2.2.2
  have hmod : (toEpochUsec dt - toEpochUsec epoch1900) % 1000000 = dt.microsecond := by
    unfold toEpochUsec epoch1900
    dsimp only
    omega
  constructor
  · intro h0
    omega
  · unfold absoluteTimeOfList
    rw [h]
    dsimp only [Option.map]
    rw [hmod]

/-- Witness for C10 at the doctest input `{2000}`, whose absolute time is
the integer 3155673600. -/
theorem c10_witness :
    dateFromList ⟨2000, 1, 1, 0, 0, 0⟩ = some ⟨2000, 1, 1, 0, 0, 0, 0⟩ ∧
      absoluteTimeOfList ⟨2000, 1, 1, 0, 0, 0⟩ = some (PyNum.int 3155673600) := by
  refine ⟨by decide!, ?_⟩
  rw [(c10_absoluteTime ⟨2000, 1, 1, 0, 0, 0⟩ ⟨2000, 1, 1, 0, 0, 0, 0⟩ (by decide!)).2]
  decide!

/-- C2 amended: a calendar-valid six-field list round-trips through `_Date`
exactly when its second field is a whole number of microseconds
`k + j / 10^6`. -/
theorem c2_roundtrip (l : Datelist) (k j : ℤ)
    (hs : l.s = (k : ℚ) + (j : ℚ) / 1000000)
    (hj0 : 0 ≤ j) (hj1 : j ≤ 999999)
    (hv : 1 ≤ l.y ∧ l.y ≤ 9999 ∧ 1 ≤ l.mo ∧ l.mo ≤ 12 ∧ 1 ≤ l.d ∧
      l.d ≤ daysInMonth l.y l.mo ∧ 0 ≤ l.h ∧ l.h ≤ 23 ∧ 0 ≤ l.mi ∧
      l.mi ≤ 59 ∧ 0 ≤ l.s ∧ l.s < 60) :
    dateFromList l = some ⟨l.y, l.mo, l.d, l.h, l.mi, k, j⟩ ∧
      to_list ⟨l.y, l.mo, l.d, l.h, l.mi, k, j⟩ = l := by
  obtain ⟨hy1, hy2, hmo1, hmo2, hd1, hd2, hh1, hh2, hmi1, hmi2, hs0, hs60⟩ := hv
  have hfq0 : (0 : ℚ) ≤ (j : ℚ) / 1000000 := by positivity
  have hfq1 : (j : ℚ) / 1000000 < 1 := by
    rw [div_lt_one (by norm_num)]
    exact_mod_cast (by omega : j < 1000000)
  have hfl : ⌊l.s⌋ = k := by
    rw [hs, Int.floor_eq_iff]
    constructor
    · linarith
    · linarith [hfq1]
  have htr : pyTrunc l.s = k := by
    unfold pyTrunc
    rw [if_neg (not_lt.mpr hs0)]
    exact hfl
  have hfr : pyFract l.s = (j : ℚ) / 1000000 := by
    unfold pyFract
    rw [hfl, hs]
    ring
  have husec : pyTrunc (1000000 * pyFract l.s) = j := by
    rw [hfr]
    have he : (1000000 : ℚ) * ((j : ℚ) / 1000000) = (j : ℚ) := by field_simp
    rw [he]
    unfold pyTrunc
    rw [if_neg (not_lt.mpr (by exact_mod_cast hj0))]
    exact Int.floor_intCast j
  have hk0 : 0 ≤ k := by
    have h0 := Int.floor_nonneg.mpr hs0
    rw [hfl] at h0
    exact h0
  have hk59 : k ≤ 59 := by
    have h60 : ⌊l.s⌋ < 60 := Int.floor_lt.mpr (by exact_mod_cast hs60)
    omega
  constructor
  · unfold dateFromList
    rw [htr, husec]
    unfold mkDatetime
    rw [if_pos ⟨hy1, hy2, hmo1, hmo2, hd1, hd2, hh1, hh2, hmi1, hmi2, hk0,
      hk59, hj0, hj1⟩]
  · unfold to_list
    dsimp only
    rw [← hs]

/-- Witness for C2 at `[1991, 10, 31, 0, 0, 0.5]`. -/
theorem c2_witness :
    dateFromList ⟨1991, 10, 31, 0, 0, (1 : ℚ)/2⟩ =
        some ⟨1991, 10, 31, 0, 0, 0, 500000⟩ ∧
      to_list ⟨1991, 10, 31, 0, 0, 0, 500000⟩ = ⟨1991, 10, 31, 0, 0, (1 : ℚ)/2⟩ :=
  c2_roundtrip ⟨1991, 10, 31, 0, 0, (1 : ℚ)/2⟩ 0 500000 (by norm_num)
    (by norm_num) (by norm_num) (by decide!)

/-- Counterexample to C2 as stated: the calendar-valid list
`[2000, 1, 1, 0, 0, 1/2000000]` carries a sub-second fraction, yet
`int(1e6 * (s % 1.))` truncates it away and the round-trip returns second
0 instead of 1/2000000. -/
theorem c2_counterexample :
    (1 ≤ (2000 : ℤ) ∧ 1 ≤ (1 : ℤ) ∧ 0 ≤ (1 : ℚ)/2000000 ∧ (1 : ℚ)/2000000 < 60) ∧
      (dateFromList ⟨2000, 1, 1, 0, 0, (1 : ℚ)/2000000⟩).map to_list ≠
        some ⟨2000, 1, 1, 0, 0, (1 : ℚ)/2000000⟩ := by
  decide!

/-- C1: for every numeric list of one to six numbers whose first two
components are Python ints, `to_datelist` pads on the right with the
defaults `[1900, 1, 1, 0, 0, 0]`, constructs the exact calendar anchor
`datetime(year, month, 1)`, and adds fields 3-6 to it as a true
elapsed-time `timedelta` with `days = day - 1`; in particular
`[2003, 5, 0.5, 0.1, 0.767]` resolves to `[2003, 4, 30, 12, 6, 46.02]`. -/
theorem c1_pad_anchor_delta :
    (∀ (etime : List PyNum), numericListCond etime →
      to_datelist_numeric etime =
        (mkDatetime (pyIntOf ((etime[0]?).getD (PyNum.int 1900)))
            (pyIntOf ((etime[1]?).getD (PyNum.int 1))) 1 0 0 0 0).bind
          fun anchor =>
            (addTimedelta anchor
              (tdeltaUsec (((etime[2]?).getD (PyNum.int 1)).val - 1)
                ((etime[3]?).getD (PyNum.int 0)).val
                ((etime[4]?).getD (PyNum.int 0)).val
                ((etime[5]?).getD (PyNum.real 0)).val)).map to_list) ∧
    to_datelist_numeric
        [.int 2003, .int 5, .real (1/2), .real (1/10), .real (767/1000)] =
      some ⟨2003, 4, 30, 12, 6, 4602/100⟩ := by
  constructor
  · intro etime hcond
    obtain ⟨hlen1, hlen6, -⟩ := id hcond
    unfold to_datelist_numeric
    rw [if_pos hcond]
    rcases etime with _ | ⟨a, _ | ⟨b, _ | ⟨c, _ | ⟨d, _ | ⟨e, _ | ⟨f, _ | ⟨g, rest⟩⟩⟩⟩⟩⟩⟩
    · simp at hlen1
    · rfl
    · rfl
    · rfl
    · rfl
    · rfl
    · rfl
    · simp [List.length_cons] at hlen6
  · decide!

/-- Witness for C1 at the singleton list `[2000]`. -/
theorem c1_witness :
    numericListCond [PyNum.int 2000] ∧
      to_datelist_numeric [PyNum.int 2000] = some ⟨2000, 1, 1, 0, 0, 0⟩ :=
  ⟨by decide, (c1_pad_anchor_delta.1 [PyNum.int 2000] (by decide)).trans (by decide!)⟩

/-- C6: `DateDifference` on date lists computes the signed elapsed-time
delta `date2 - date1` (5476 days for the doctest pair, negated when the
arguments are swapped), BUT a text `date1` is resolved from `date2`'s
string (`_Date(datestr = pydate2.strip(...))` at line 672): with
`parse "A" = 1991-06-06` and `parse "B" = 1991-06-07`, the difference of
`"A"` and `"B"` comes out as 0 days although the two texts are one day
apart. -/
theorem c6_dateDifference :
    dateDifferenceApply noParse (.list [.int 2042, .int 1, .int 4])
        (.list [.int 2057, .int 1, .int 1]) (.str "Day") =
      ⟨[], .val (.num (.int 5476))⟩ ∧
    dateDifferenceApply noParse (.list [.int 2057, .int 1, .int 1])
        (.list [.int 2042, .int 1, .int 4]) (.str "Day") =
      ⟨[], .val (.num (.int (-5476)))⟩ ∧
    c6parse "A" = some ⟨1991, 6, 6, 0, 0, 0, 0⟩ ∧
    c6parse "B" = some ⟨1991, 6, 7, 0, 0, 0, 0⟩ ∧
    dateDifferenceApply c6parse (.str "A") (.str "B") (.str "Day") =
      ⟨[], .val (.num (.int 0))⟩ ∧
    (toEpochUsec ⟨1991, 6, 7, 0, 0, 0, 0⟩ -
        toEpochUsec ⟨1991, 6, 6, 0, 0, 0, 0⟩) / 86400000000 = 1 := by
  decide!

/-- C7: the unit conversions use the fixed ratios of the claim and produce
an exact integer quotient exactly when the remainder vanishes (Hour and
Second shown exact, Year on a one-day difference shown as the rational
1/365), BUT the `Minute` branch references the misspelled name `secods`
(line 729) and raises `NameError` instead of returning
`(elapsedSeconds / 60, Minute)`. -/
theorem c7_minute_crash :
    dateDifferenceApply noParse (.list [.int 2000, .int 1, .int 1])
        (.list [.int 2000, .int 1, .int 2]) (.str "Minute") = ⟨[], .exn⟩ ∧
    dateDifferenceApply noParse (.list [.int 2000, .int 1, .int 1])
        (.list [.int 2000, .int 1, .int 2]) (.str "Hour") =
      ⟨[], .val (.withUnit (.int 24) "Hour")⟩ ∧
    dateDifferenceApply noParse (.list [.int 2000, .int 1, .int 1])
        (.list [.int 2000, .int 1, .int 2]) (.str "Second") =
      ⟨[], .val (.withUnit (.int 86400) "Second")⟩ ∧
    dateDifferenceApply noParse (.list [.int 2000, .int 1, .int 1])
        (.list [.int 2000, .int 1, .int 2]) (.str "Year") =
      ⟨[], .val (.withUnit (.real (1/365)) "Year")⟩ ∧
    dateDifferenceApply noParse (.list [.int 2010, .int 6, .int 1])
        (.list [.int 2015, .int 1, .int 1]) (.str "Hour") =
      ⟨[], .val (.withUnit (.int 40200) "Hour")⟩ := by
  decide!

/-- C8: `DatePlus` with an unrecognized unit name or a non-numeric amount
issues the `inc` message and produces no value (and works normally on a
good offset), BUT `DateDifference` with an unrecognized unit issues the
`inc` message WITHOUT returning (line 701 lacks a `return`), falls into
the conversion block and crashes on the unassigned name `result`. -/
theorem c8_incrementError :
    datePlusApply noParse (.list [.int 2010, .int 2, .int 5])
        [(.num (.int 5), "Fortnight")] = ⟨["inc"], .retNone⟩ ∧
    datePlusApply noParse (.list [.int 2010, .int 2, .int 5])
        [(.str "x", "Day")] = ⟨["inc"], .retNone⟩ ∧
    datePlusApply noParse (.list [.int 2010, .int 2, .int 5])
        [(.num (.int 73), "Day")] =
      ⟨[], .val (.dlist [.int 2010, .int 4, .int 19])⟩ ∧
    dateDifferenceApply noParse (.list [.int 2000, .int 1, .int 1])
        (.list [.int 2000, .int 1, .int 2]) (.str "Fortnight") =
      ⟨["inc"], .exn⟩ := by
  decide!

/-- Concatenation distributes over the rendered-string join. -/
theorem strJoin_append (a b : List String) :
    strJoin (a ++ b) = strJoin a ++ strJoin b := by
  induction a with
  | nil => simp [strJoin]
  | cons x xs ih => simp [strJoin, ih, String.append_assoc]

/-- C9 amended: `DateString` renders each requested form in input order
and concatenates (literals verbatim), and for `...Short` tokens other than
`YearShort` it strips ALL leading zeros of each space-separated field of
that token's own rendering: `DayShort` on day 3 gives `"3"`, `Day` gives
`"03"`, and `MinuteShort` on minute 0 gives `""` (every zero stripped). -/
theorem c9_render :
    (∀ (dt : DateTime) (p : String), DATE_STRING_FORMATS.lookup p = none →
      renderForm dt p = p) ∧
    (∀ (dt : DateTime) (fs1 fs2 : List String),
      dateString dt (fs1 ++ fs2) = dateString dt fs1 ++ dateString dt fs2) ∧
    renderForm ⟨1979, 3, 3, 0, 0, 0, 0⟩ "DayShort" = "3" ∧
    renderForm ⟨1979, 3, 3, 0, 0, 0, 0⟩ "Day" = "03" ∧
    renderForm ⟨2000, 1, 1, 0, 5, 0, 0⟩ "MinuteShort" = "5" ∧
    renderForm ⟨2000, 1, 1, 0, 0, 0, 0⟩ "MinuteShort" = "" := by
  refine ⟨?_, ?_, by decide, by decide, by decide, by decide⟩
  · intro dt p h
    unfold renderForm
    rw [h]
  · intro dt fs1 fs2
    unfold dateString
    rw [List.map_append, strJoin_append]

/-- Witness for C9 on the unrecognized form name `"Foo"`. -/
theorem c9_witness :
    DATE_STRING_FORMATS.lookup "Foo" = none ∧
      renderForm ⟨2000, 1, 1, 0, 0, 0, 0⟩ "Foo" = "Foo" :=
  ⟨by decide, c9_render.1 ⟨2000, 1, 1, 0, 0, 0, 0⟩ "Foo" (by decide)⟩

/-- Counterexample to C9 as stated: on minute 0 the source's `lstrip`
yields `""`, not the `"0"` that stripping a single leading zero would
give. -/
theorem c9_counterexample :
    renderForm ⟨2000, 1, 1, 0, 0, 0, 0⟩ "MinuteShort" = "" ∧
      stripOneLeadingZeroSpec (strftime ⟨2000, 1, 1, 0, 0, 0, 0⟩ "%M") = "0" ∧
      renderForm ⟨2000, 1, 1, 0, 0, 0, 0⟩ "MinuteShort" ≠
        stripOneLeadingZeroSpec (strftime ⟨2000, 1, 1, 0, 0, 0, 0⟩ "%M") := by
  decide

end Datentime
